import Mathlib

/-
  Verification development for the Speedy Bites restaurant chatbot
  (`app/chatbot_logic.py`).

  The Python module is shallowly embedded below.  Conventions:
  * Python strings are Lean `String`s.  The source file is stored with
    double-encoded ("mojibake") characters; the embedding reproduces the
    literal character sequences of the source via `\u` escapes.
  * `str.lower` / `str.upper` are modelled on the ASCII range (all
    catalogue data and keyword tables in the source are ASCII).
  * rapidfuzz similarity scores (floats in [0,100]) are modelled as exact
    fractions `FScore` (numerator/denominator in ℕ); every use in the
    source is a threshold comparison, which the fraction order decides
    exactly.  `fuzz.ratio` is the normalized InDel similarity
    `200·lcs(a,b)/(|a|+|b|)`; `fuzz.token_set_ratio` follows the
    rapidfuzz token-set algorithm.
  * Raised exceptions (`KeyError`, `TypeError`, the `NameError` caused by
    the undefined `find_dish_by_name`) are modelled as `Except.error`.
  * Python dict values that may be absent are `Option`s; the per-session
    dict is the `Session` structure.
-/

/-- Python whitespace characters (`str.split`, `str.strip` default set). -/
def isPyWS (c : Char) : Bool :=
  c == ' ' || c == '\t' || c == '\n' || c == '\r' || c == '\x0b' || c == '\x0c'

/-- Boolean list-prefix test. -/
def isPreB : List Char → List Char → Bool
  | [], _ => true
  | _ :: _, [] => false
  | a :: as, b :: bs => a == b && isPreB as bs

/-- Boolean list-infix test (needle, haystack). -/
def isInfB (s : List Char) : List Char → Bool
  | [] => isPreB s []
  | c :: cs => isPreB s (c :: cs) || isInfB s cs

/-- Python `needle in hay` for strings (contiguous substring test). -/
def pyIn (needle hay : String) : Bool := isInfB needle.data hay.data

/-- Python `hay.startswith(pre)`. -/
def pyStartsWith (hay pre : String) : Bool := isPreB pre.data hay.data

/-- ASCII-range model of Python `str.lower`. -/
def pyLower (s : String) : String := ⟨s.data.map Char.toLower⟩

/-- ASCII-range model of Python `str.upper`. -/
def pyUpper (s : String) : String := ⟨s.data.map Char.toUpper⟩

def dropRightWhileL (p : Char → Bool) (l : List Char) : List Char :=
  (l.reverse.dropWhile p).reverse

/-- Python `str.strip()` (no argument): trim whitespace on both ends. -/
def pyStrip (s : String) : String :=
  ⟨dropRightWhileL isPyWS (s.data.dropWhile isPyWS)⟩

def pySplitAux : List Char → List Char → List (List Char)
  | [], cur => if cur.isEmpty then [] else [cur.reverse]
  | c :: cs, cur =>
    if isPyWS c then
      (if cur.isEmpty then pySplitAux cs [] else cur.reverse :: pySplitAux cs [])
    else pySplitAux cs (c :: cur)

/-- Python `str.split()` (no argument): split on whitespace runs, no empties. -/
def pySplitWS (s : String) : List String := (pySplitAux s.data []).map (⟨·⟩)

/-- Python `" ".join(l)`. -/
def joinSpace (l : List String) : String :=
  match l with
  | [] => ""
  | x :: xs => xs.foldl (fun a y => a ++ " " ++ y) x

def replAux (pat rep : List Char) : Nat → List Char → List Char
  | _, [] => []
  | 0, l => l
  | fuel + 1, c :: cs =>
    if pat.isEmpty then c :: cs
    else if isPreB pat (c :: cs) then
      rep ++ replAux pat rep fuel (cs.drop (pat.length - 1))
    else c :: replAux pat rep fuel cs

/-- Python `s.replace(pat, rep)` for non-empty `pat` (left-to-right,
non-overlapping; the empty-pattern case never occurs in the source).
Structural recursion on a fuel that bounds the scan length. -/
def pyReplace (s pat rep : String) : String :=
  ⟨replAux pat.data rep.data s.data.length s.data⟩

/-- Lexicographic (code-point) order on strings, as Python string `<`. -/
def strLtB : List Char → List Char → Bool
  | [], [] => false
  | [], _ :: _ => true
  | _ :: _, [] => false
  | a :: as, b :: bs => a < b || (a == b && strLtB as bs)

/-- Insert into a sorted duplicate-free list, keeping it sorted and
duplicate-free (used to model `sorted(set(...))`). -/
def sortedInsertU (x : String) : List String → List String
  | [] => [x]
  | y :: ys =>
    if x == y then y :: ys
    else if strLtB x.data y.data then x :: y :: ys
    else y :: sortedInsertU x ys

/-- `sorted(set(s.split()))`: the sorted duplicate-free token list. -/
def sortedTokens (s : String) : List String :=
  (pySplitWS s).foldl (fun acc t => sortedInsertU t acc) []

def lcsRowGo (c : Char) : List Char → List Nat → Nat → Nat → List Nat
  | [], _, _, _ => []
  | _ :: _, [], _, _ => []
  | y :: ys, pn :: pt, pj, qj =>
    let q := if c == y then pj + 1 else max qj pn
    q :: lcsRowGo c ys pt pn q

/-- Length of a longest common subsequence (row-DP, polynomial). -/
def lcsList (xs ys : List Char) : Nat :=
  let final := xs.foldl
    (fun prev c => 0 :: lcsRowGo c ys prev.tail (prev.headD 0) 0)
    (List.replicate (ys.length + 1) 0)
  final.getLastD 0

/-- A similarity score in [0,100], kept as an exact (un-normalized)
fraction `num / den` with `den ≠ 0`; floats in rapidfuzz are only ever
compared against thresholds, which this order decides exactly. -/
structure FScore where
  num : Nat
  den : Nat
deriving DecidableEq, Repr

def FScore.ofNat (n : Nat) : FScore := ⟨n, 1⟩

/-- `a < b` on score fractions (cross multiplication). -/
def FScore.ltB (a b : FScore) : Bool := a.num * b.den < b.num * a.den

/-- `a ≤ b` on score fractions (cross multiplication). -/
def FScore.leB (a b : FScore) : Bool := a.num * b.den ≤ b.num * a.den

/-- `a ≥ t` for a natural threshold `t`. -/
def FScore.geN (a : FScore) (t : Nat) : Bool := t * a.den ≤ a.num

/-- `a > t` for a natural threshold `t`. -/
def FScore.gtN (a : FScore) (t : Nat) : Bool := t * a.den < a.num

/-- `a + t` for a natural `t` (used for `cat_score + 10`). -/
def FScore.addN (a : FScore) (t : Nat) : FScore := ⟨a.num + t * a.den, a.den⟩

/-- Python `max(a, b)`: returns the second only when strictly larger. -/
def FScore.pymax (a b : FScore) : FScore := if a.ltB b then b else a

/-- `rapidfuzz.fuzz.ratio`: normalized InDel similarity
`100·(1 − dist/(|a|+|b|)) = 200·lcs/(|a|+|b|)`; `100` when both empty. -/
def fratio (a b : String) : FScore :=
  let la := a.data.length
  let lb := b.data.length
  if la + lb = 0 then ⟨100, 1⟩ else ⟨200 * lcsList a.data b.data, la + lb⟩

/-- `rapidfuzz.fuzz.token_set_ratio`: compares the sorted token
intersection and differences pairwise with `ratio` and takes the best. -/
def tokenSetRatio (a b : String) : FScore :=
  let ta := sortedTokens a
  let tb := sortedTokens b
  if ta.isEmpty || tb.isEmpty then ⟨0, 1⟩
  else
    let sect := ta.filter (fun t => tb.contains t)
    let dab := ta.filter (fun t => !tb.contains t)
    let dba := tb.filter (fun t => !ta.contains t)
    if !sect.isEmpty && (dab.isEmpty || dba.isEmpty) then ⟨100, 1⟩
    else
      let s0 := joinSpace sect
      let c1 := pyStrip (s0 ++ " " ++ joinSpace dab)
      let c2 := pyStrip (s0 ++ " " ++ joinSpace dba)
      let r1 := fratio s0 c1
      let r2 := fratio s0 c2
      let r3 := fratio c1 c2
      (r1.pymax r2).pymax r3

/-- `rapidfuzz.process.extractOne(query, choices, scorer)` with the
default cutoff: best-scoring choice, first one winning ties; `none` only
for an empty choice list. -/
def extractOne (scorer : String → String → FScore) (q : String)
    (choices : List String) : Option (String × FScore) :=
  choices.foldl
    (fun best c =>
      let s := scorer q c
      match best with
      | none => some (c, s)
      | some (_, bs) => if bs.ltB s then some (c, s) else best)
    none

/-! ## Lexicon (verbatim tables from `chatbot_logic.py`) -/

/-- The contraction table of `normalize_text`, in declaration order. -/
def contractions : List (String × String) :=
  [("what's", "what is"), ("what're", "what are"),
   ("who's", "who is"), ("where's", "where is"),
   ("when's", "when is"), ("why's", "why is"),
   ("how's", "how is"), ("it's", "it is"),
   ("that's", "that is"), ("there's", "there is"),
   ("here's", "here is"), ("i'm", "i am"),
   ("you're", "you are"), ("we're", "we are"),
   ("they're", "they are"), ("i've", "i have"),
   ("you've", "you have"), ("we've", "we have"),
   ("they've", "they have"), ("i'll", "i will"),
   ("you'll", "you will"), ("we'll", "we will"),
   ("they'll", "they will"), ("don't", "do not"),
   ("doesn't", "does not"), ("didn't", "did not"),
   ("can't", "cannot"), ("won't", "will not"),
   ("isn't", "is not"), ("aren't", "are not"),
   ("wasn't", "was not"), ("weren't", "were not")]

def farewells : List String :=
  ["Bye! Have a great day!", "See you soon!", "Thanks for visiting Speedy Bites!"]

def goodbye_keywords : List String :=
  ["bye", "exit", "quit", "goodbye", "see you", "farewell"]

def menu_keywords : List String :=
  ["show me the menu", "view menu", "see menu", "full menu", "all menu",
   "complete menu", "menu"]

def food_keywords : List String :=
  ["burger", "pizza", "pasta", "fries", "drink", "roll", "wrap", "soup",
   "biryani", "karahi"]

/-- `KNOWN_UNAVAILABLE_CATEGORIES`, in dict insertion order. -/
def KNOWN_UNAVAILABLE_CATEGORIES : List (String × String) :=
  [("roll", "rolls"), ("rolls", "rolls"), ("role", "rolls"),
   ("wrap", "wraps"), ("soup", "soups")]

def stop_words : List String :=
  ["what", "is", "the", "price", "of", "how", "much", "does", "cost",
   "show", "me", "tell", "about", "i", "want", "to", "order", "have",
   "you", "got", "list", "menu", "available", "can", "get", "a", "an",
   "in", "for", "please", "help", "need", "looking", "find", "search",
   "but", "asked", "meant", "say", "said"]

/-! ## Text Normalizer -/

/-- `re.sub(r'[^\w\s]', ' ', text)` on the ASCII range: every character
that is neither a word character (`[A-Za-z0-9_]`) nor whitespace becomes
a space. -/
def subNonWord (s : String) : String :=
  ⟨s.data.map (fun c => if c.isAlphanum || c == '_' || isPyWS c then c else ' ')⟩

/-- `normalize_text`: lowercase + strip, punctuation to spaces, whitespace
collapse, then the contraction-table replacement loop (in table order). -/
def normalize_text (text : String) : String :=
  let text := pyStrip (pyLower text)
  let text := subNonWord text
  let text := joinSpace (pySplitWS text)
  contractions.foldl (fun t ce => pyReplace t ce.1 ce.2) text

/-- `clean_search_query`: lowercase, split on whitespace, drop stop words,
re-join with single spaces. -/
def clean_search_query (text : String) : String :=
  joinSpace ((pySplitWS (pyLower text)).filter (fun w => !stop_words.contains w))

/-! ## Intent Classifier (`detect_intent`) -/

/-- The rule cascade of `detect_intent` over the already-normalized
message `m` (the source computes `normalized_msg` once and then runs
this ordered first-match-wins chain). -/
def detect_intent_core (m : String) : String :=
  if m == "show me the menu" then "menu_query"
  else if pyIn "price" m || pyIn "how much" m then "menu_query"
  else if m == "what are your hours" then "hours_query"
  else if m == "where are your branches" then "branch_query"
  else if m == "do you offer delivery" then "faq_query"
  else if menu_keywords.any (fun kw => pyIn kw m) then "menu_query"
  else if pyIn "price" m || pyIn "how much" m || pyIn "cost" m then "menu_query"
  else if (pySplitWS m).any (fun w => goodbye_keywords.contains w) then "farewell"
  else if pyIn "halal" m || pyIn "haram" m then "halal_query"
  else if pyIn "what is speedy bites" m || pyIn "what is food bite" m ||
          pyIn "brand" m || pyIn "company" m then "brand_query"
  else if pyIn "famous" m || pyIn "speciality" m then "brand_query"
  else if pyIn "speed bite" m || pyIn "who are we" m || pyIn "about you" m ||
          pyIn "tell me about" m then "brand_query"
  else if pyIn "branch" m || pyIn "location" m || pyIn "address" m ||
          pyIn "where" m then "branch_query"
  else if pyIn "hours" m || pyIn "open" m || pyIn "time" m || pyIn "when" m then
    "hours_query"
  else if pyIn "delivery" m || pyIn "deliver" m then "faq_query"
  else if food_keywords.any (fun kw => pyIn kw m) then "menu_query"
  else "unknown"

/-- `detect_intent`: normalize, then run the cascade. -/
def detect_intent (user_msg : String) : String :=
  detect_intent_core (normalize_text user_msg)

/-! ## Data model

JSON-loaded datasets.  A menu category maps to a list of entries; an
entry is either a JSON object (modelled by `ItemDict`, with the fields
the embedded code reads) or some other JSON value (`other`).  Prices are
modelled as naturals (the catalogue uses integer PKR amounts).  Branch
and hours entries may likewise be malformed (`other`). -/

inductive VariantEntry where
  | dict (size : Option String) (price : Option Nat)
  | other
deriving DecidableEq, Repr

structure ItemDict where
  name : Option String
  base_price : Option Nat
  variants : Option (List VariantEntry)
deriving DecidableEq, Repr

inductive MenuEntry where
  | dict (d : ItemDict)
  | other
deriving DecidableEq, Repr

inductive BranchVal where
  | dict (name address phone : Option String)
  | other
deriving DecidableEq, Repr

/-- An hours entry: the renderer only tests `isinstance(·, dict)` and
never reads the per-day contents, so only dict-ness is modelled. -/
inductive HoursVal where
  | dict
  | other
deriving DecidableEq, Repr

structure Faq where
  question : Option String
  answer : Option String
deriving DecidableEq, Repr

/-- The `data` mapping produced by `load_data` (fields the core reads). -/
structure BotData where
  menu : List (String × List MenuEntry)
  currency : String
  faq : List Faq
  branches : List BranchVal
  hours : List HoursVal
deriving DecidableEq, Repr

/-- Result dicts of `search_category_or_dish`:
`{"type": "category", "data": name, "items": items}` or
`{"type": "dish", "data": name}`. -/
inductive SearchResult where
  | category (name : String) (items : List MenuEntry)
  | dish (name : String)
deriving DecidableEq, Repr

/-- The per-conversation session dict; `none` models an absent key. -/
structure Session where
  shown_menu : Option Nat := none
  shown_hours : Option Nat := none
  shown_branches : Option Nat := none
  shown_delivery : Option Nat := none
  last_topic : Option (Option SearchResult) := none
  faq_followup : Option (Option Unit) := none
deriving DecidableEq, Repr

/-- Python exceptions the embedded code can raise. -/
inductive PyErr where
  | keyError (key : String)
  | typeError
  | nameError (name : String)
deriving DecidableEq, Repr

deriving instance DecidableEq for Except

/-! ## Catalog Resolver (`search_category_or_dish`) -/

/-- Last-binding-wins association lookup (Python dict overwrite
semantics for `dish_map`). -/
def lookupLast (m : List (String × String)) (k : String) : Option String :=
  m.foldl (fun acc kv => if kv.1 == k then some kv.2 else acc) none

/-- The flat dish candidate list `all_items` (names plus
`"{size} {name}"` variant aliases) and the `dish_map` from lowercased
candidate to parent dish name, built in source order. -/
def buildItemsMap (menu : List (String × List MenuEntry)) :
    List String × List (String × String) :=
  menu.foldl
    (fun acc ci =>
      ci.2.foldl
        (fun acc e =>
          match e with
          | .other => acc
          | .dict d =>
            match d.name with
            | none => acc
            | some name =>
              let acc := (acc.1 ++ [name], acc.2 ++ [(pyLower name, name)])
              match d.variants with
              | none => acc
              | some vs =>
                vs.foldl
                  (fun acc v =>
                    match v with
                    | .dict (some size) _ =>
                      let vn := size ++ " " ++ name
                      (acc.1 ++ [vn], acc.2 ++ [(pyLower vn, name)])
                    | _ => acc)
                  acc)
        acc)
    ([], [])

/-- `cleaned_msg` with the "fallback if everything was stripped" step. -/
def cleanedQueryOf (user_msg : String) : String :=
  let c := clean_search_query user_msg
  if c == "" then user_msg else c

/-- Step 1 of the resolver: `(best_cat, cat_score)` (accept at ≥ 80). -/
def categoryCandidate (cleaned : String)
    (menu : List (String × List MenuEntry)) : Option String × FScore :=
  match extractOne tokenSetRatio cleaned (menu.map Prod.fst) with
  | some (c, s) => if s.geN 80 then (some c, s) else (none, ⟨0, 1⟩)
  | none => (none, ⟨0, 1⟩)

/-- The raw `process.extractOne` over the dish candidate list. -/
def dishExtract (cleaned : String)
    (menu : List (String × List MenuEntry)) : Option (String × FScore) :=
  extractOne tokenSetRatio cleaned (buildItemsMap menu).1

/-- Step 2 of the resolver: `(best_dish, dish_score)` with the substring
boost to ≥ 95, acceptance at ≥ 60, and variant-alias resolution. -/
def dishCandidate (cleaned : String)
    (menu : List (String × List MenuEntry)) : Option String × FScore :=
  match dishExtract cleaned menu with
  | none => (none, ⟨0, 1⟩)
  | some (c, s0) =>
    let s := if pyIn (pyLower cleaned) (pyLower c) then s0.pymax ⟨95, 1⟩ else s0
    if s.geN 60 then
      (some ((lookupLast (buildItemsMap menu).2 (pyLower c)).getD c), s)
    else (none, ⟨0, 1⟩)

/-- Python truthiness of the optional candidate strings. -/
def optTruthy : Option String → Bool
  | none => false
  | some s => s != ""

/-- `menu_data[k]` (keys of a Python dict are unique). -/
def menuGet (menu : List (String × List MenuEntry)) (k : String) :
    List MenuEntry :=
  ((menu.find? (fun ci => ci.1 == k)).map Prod.snd).getD []

/-- Step 3 of the resolver: the decision logic of lines 360–386. -/
def searchDecision (bc bd : Option String × FScore)
    (menu : List (String × List MenuEntry)) : Option SearchResult :=
  let best_cat := bc.1
  let cat_score := bc.2
  let best_dish := bd.1
  let dish_score := bd.2
  if optTruthy best_cat && cat_score.gtN 85 then
    if optTruthy best_dish && (cat_score.addN 10).ltB dish_score then
      some (.dish (best_dish.getD ""))
    else
      some (.category (best_cat.getD "") (menuGet menu (best_cat.getD "")))
  else if optTruthy best_dish && dish_score.gtN 80 then
    some (.dish (best_dish.getD ""))
  else if optTruthy best_cat && optTruthy best_dish then
    if dish_score.leB cat_score then
      some (.category (best_cat.getD "") (menuGet menu (best_cat.getD "")))
    else some (.dish (best_dish.getD ""))
  else if optTruthy best_cat then
    some (.category (best_cat.getD "") (menuGet menu (best_cat.getD "")))
  else if optTruthy best_dish then some (.dish (best_dish.getD ""))
  else none

/-- `search_category_or_dish`. -/
def search_category_or_dish (user_msg : String)
    (menu : List (String × List MenuEntry)) : Option SearchResult :=
  let cleaned := cleanedQueryOf user_msg
  searchDecision (categoryCandidate cleaned menu) (dishCandidate cleaned menu)
    menu

/-! ## Response Renderer

All string literals reproduce the source file byte-for-byte; the
source is stored with double-encoded emoji, so the non-ASCII characters
below are the literal (mojibake) characters of `chatbot_logic.py`,
written as `\u` escapes. -/

def halalMsg : String :=
  "Yes ðŸ˜Š All our food is 100% halal, made only with halal-certified chicken and beef."

def brandMsg : String :=
  "Speedy Bites is a food company that provides quality fast food made fresh with care."

def alreadyViewedStr : String :=
  "You've already viewed this, but here's the info again:\n\n"

def branchesHdr : String := "ðŸ“ OUR BRANCHES:\n\n"

def hoursHdr : String := "ðŸ• OPENING HOURS:\n\n"

def viewMenuPrompt : String :=
  "Would you like to see the full menu? Just say 'full menu' and I'll show you everything! ðŸ“‹"

def fullMenuHdr : String :=
  "Sure! ðŸ½ï¸ Hereâ€™s our full menu at Speedy Bites ðŸ‘‡\n\n"

def priceAskMsg : String :=
  "Which dish are you asking about? Please mention the dish name so I can tell you the price. ðŸ˜Š"

def popularHdr : String := "ðŸ½ï¸ **Popular Items:**\n\n"

def popularFooter : String :=
  "\nðŸ’¬ Ask me about any specific dish for details!"

def notSureMsg : String :=
  "I'm not fully sure I understood ðŸ˜• Would you like to see the menu or try another dish?"

def unavailMsg (category_proper : String) : String :=
  "Currently, " ++ category_proper ++
  " are not available ðŸ˜” but weâ€™ll be adding them back very soon!"

def suggestMsg (match_name : String) : String :=
  "I think you meant **" ++ match_name ++
  "** ðŸ˜Š\nWould you like to know its price or see details?"

/-- Python `s * n` for strings. -/
def pyRepeat (s : String) (n : Nat) : String :=
  (List.replicate n s).foldl (fun a b => a ++ b) ""

/-- Python `random.choice(l)` determinized by an external index. -/
def pyChoice (l : List String) (rnd : Nat) : String := l.getD (rnd % l.length) ""

def view_menu_keywords : List String :=
  ["show me the menu", "view menu", "show menu", "see menu", "menu button"]

def full_menu_keywords : List String :=
  ["full menu", "all menu", "complete menu", "entire menu", "show all"]

def listMinD : List Nat → Nat
  | [] => 0
  | x :: xs => xs.foldl min x

def listMaxD : List Nat → Nat
  | [] => 0
  | x :: xs => xs.foldl max x

/-- The price value of a variant dict that has a `"price"` key. -/
def variantPrice : VariantEntry → Option Nat
  | .dict _ (some p) => some p
  | _ => none

/-- One item line of `build_category_response` (lines 394–409); malformed
entries contribute nothing (`continue`). -/
def catItemLine (currency : String) : MenuEntry → String
  | .other => ""
  | .dict d =>
    match d.name with
    | none => ""
    | some name =>
      let line := "â€¢ **" ++ name ++ "**"
      let line :=
        match d.variants with
        | some (v :: vs) =>
          let prices := (v :: vs).filterMap variantPrice
          match prices with
          | [] => line
          | [p] => line ++ " â€” " ++ toString p ++ " " ++ currency
          | _ =>
            line ++ " â€” " ++ toString (listMinD prices) ++ "-" ++
              toString (listMaxD prices) ++ " " ++ currency
        | _ =>
          match d.base_price with
          | some bp => line ++ " â€” " ++ toString bp ++ " " ++ currency
          | none => line
      line ++ "\n"

/-- `build_category_response`. -/
def build_category_response (category_name : String)
    (items : List MenuEntry) (currency : String) : String :=
  let cat_display := pyReplace (pyUpper category_name) "_" " "
  let response := "ðŸ½ï¸ **" ++ cat_display ++ "**\n" ++
    pyRepeat "â”" 30 ++ "\n\n"
  let response := items.foldl (fun a it => a ++ catItemLine currency it) response
  response ++ "\nðŸ’¡ Type a specific dish name for more details!"

/-- One item line of the full-menu rendering (lines 547–552): name plus
base price when present (variant prices are not rendered here). -/
def fullItemLine (currency : String) : MenuEntry → String
  | .other => ""
  | .dict d =>
    match d.name with
    | none => ""
    | some name =>
      "â€¢ " ++ name ++
        (match d.base_price with
         | some bp => " â€” " ++ toString bp ++ " " ++ currency
         | none => "") ++ "\n"

/-- One category block of the full-menu rendering (lines 541–553);
empty categories are skipped. -/
def fullCatBlock (currency : String) (ci : String × List MenuEntry) : String :=
  if ci.2.length == 0 then ""
  else
    "ðŸ“‹ " ++ pyReplace (pyUpper ci.1) "_" " " ++ "\n" ++
    pyRepeat "â”€" 20 ++ "\n" ++
    ci.2.foldl (fun a it => a ++ fullItemLine currency it) "" ++ "\n"

/-- The full-menu response (lines 540–554). -/
def fullMenuRender (menu : List (String × List MenuEntry))
    (currency : String) : String :=
  menu.foldl (fun a ci => a ++ fullCatBlock currency ci) fullMenuHdr

/-- The "Popular Items" preview loop (lines 606–611): stops after three
categories, takes `items[0]['name']` of each non-empty category with no
well-formedness check — a malformed first entry raises
(`KeyError('name')` for a dict without the key, `TypeError` for a
non-dict JSON value). -/
def popularAux : List (String × List MenuEntry) → Nat → String →
    Except PyErr String
  | [], _, acc => .ok acc
  | ci :: rest, count, acc =>
    if count ≥ 3 then .ok acc
    else
      match ci.2 with
      | [] => popularAux rest count acc
      | e :: _ =>
        match e with
        | .dict d =>
          match d.name with
          | some n =>
            popularAux rest (count + 1) (acc ++ "â€¢ " ++ n ++ "\n")
          | none => .error (.keyError "name")
        | .other => .error .typeError

/-- One branch block (lines 631–636); non-dict entries are skipped. -/
def branchBlock : BranchVal → String
  | .other => ""
  | .dict name address phone =>
    "**" ++ name.getD "Unknown" ++ "**\nðŸ“ " ++
    address.getD "Not available" ++ "\nðŸ“ž " ++
    phone.getD "Not available" ++ "\n\n"

/-- One hours line (lines 656–658): a hardcoded line per dict entry,
independent of the entry's contents; non-dict entries are skipped. -/
def hoursLine : HoursVal → String
  | .dict => "Monday-Sunday: 11:00 AM - 2:00 AM\n"
  | .other => ""

/-! ## `get_bot_response` -/

/-- The session-flag initialization block (lines 487–496): absent
counters become 0, absent `last_topic` / `faq_followup` become `None`;
present values are untouched. -/
def initSession (s : Session) : Session :=
  { shown_menu := some (s.shown_menu.getD 0)
    shown_hours := some (s.shown_hours.getD 0)
    shown_branches := some (s.shown_branches.getD 0)
    shown_delivery := some (s.shown_delivery.getD 0)
    last_topic := some (s.last_topic.getD none)
    faq_followup := some (s.faq_followup.getD none) }

/-- The `menu_query` handler block (lines 519–613).  The `dish` branch
calls `find_dish_by_name`, which is not defined anywhere in the module,
so reaching it raises `NameError` (modelled as an error value). -/
def menuHandler (user_msg user_lower : String) (data : BotData)
    (session : Session) : Except PyErr (String × Session) :=
  let menu_data := data.menu
  let currency := data.currency
  let wants_view := view_menu_keywords.any (fun kw => pyIn kw user_lower)
  let wants_full := full_menu_keywords.any (fun kw => pyIn kw user_lower)
  if wants_view && !wants_full then
    .ok (viewMenuPrompt, { session with shown_menu := some 1 })
  else if wants_full then
    .ok (fullMenuRender menu_data currency, { session with shown_menu := some 1 })
  else
    let cleaned_msg := clean_search_query user_msg
    let is_followup := (session.last_topic.getD none).isSome &&
      (cleaned_msg == "" || pyIn "price" user_lower || pyIn "cost" user_lower ||
       pyIn "want" user_lower)
    let result := search_category_or_dish user_msg menu_data
    let unavailable :=
      if result.isNone && cleaned_msg != "" then
        match extractOne fratio cleaned_msg
            (KNOWN_UNAVAILABLE_CATEGORIES.map Prod.fst) with
        | some (k, s) =>
          if s.geN 80 then
            some (((KNOWN_UNAVAILABLE_CATEGORIES.find?
              (fun kv => kv.1 == k)).map Prod.snd).getD "")
          else none
        | none => none
      else none
    match unavailable with
    | some category_proper => .ok (unavailMsg category_proper, session)
    | none =>
      let session :=
        if result.isSome then { session with last_topic := some result }
        else session
      let result :=
        if result.isNone && is_followup then session.last_topic.getD none
        else result
      match result with
      | some (.category cname citems) =>
        .ok (build_category_response cname citems currency, session)
      | some (.dish _) => .error (.nameError "find_dish_by_name")
      | none =>
        if pyIn "price" user_lower || pyIn "cost" user_lower then
          .ok (priceAskMsg, session)
        else
          match popularAux menu_data 0 "" with
          | .ok body => .ok (popularHdr ++ body ++ popularFooter, session)
          | .error e => .error e

/-- The `branch_query` handler block (lines 618–638). -/
def branchHandler (data : BotData) (session : Session) :
    Except PyErr (String × Session) :=
  if data.branches.isEmpty then
    .ok ("Sorry, branch information is not available.", session)
  else
    let cnt := session.shown_branches.getD 0
    let response :=
      if cnt > 0 then alreadyViewedStr ++ branchesHdr else branchesHdr
    let session := { session with shown_branches := some (cnt + 1) }
    let response := data.branches.foldl (fun a b => a ++ branchBlock b) response
    .ok (pyStrip response, session)

/-- The `hours_query` handler block (lines 643–660). -/
def hoursHandler (data : BotData) (session : Session) :
    Except PyErr (String × Session) :=
  if data.hours.isEmpty then
    .ok ("Sorry, opening hours are not available.", session)
  else
    let cnt := session.shown_hours.getD 0
    let response :=
      if cnt > 0 then alreadyViewedStr ++ hoursHdr else hoursHdr
    let session := { session with shown_hours := some (cnt + 1) }
    let response := data.hours.foldl (fun a h => a ++ hoursLine h) response
    .ok (pyStrip response, session)

/-- The `faq_query` handler block (lines 665–678). -/
def faqHandler (data : BotData) (session : Session) :
    Except PyErr (String × Session) :=
  let pfx :=
    if session.shown_delivery.getD 0 > 0 then alreadyViewedStr else ""
  let session :=
    { session with shown_delivery := some (session.shown_delivery.getD 0 + 1) }
  match data.faq.find? (fun q => pyIn "deliver" (pyLower (q.question.getD ""))) with
  | some q => .ok (pfx ++ q.answer.getD "We deliver!", session)
  | none =>
    .ok (pfx ++ "We offer delivery services! Please contact us directly for areas. ðŸ“¦",
      session)

/-- The fallback block (lines 690–701): for short messages a last-resort
`fuzz.ratio` match over all dish names (threshold ≥ 75, generic words
excluded), else the canned not-sure sentence. -/
def fallbackHandler (user_msg : String) (data : BotData) (session : Session) :
    Except PyErr (String × Session) :=
  if (pySplitWS user_msg).length ≤ 2 then
    let names := data.menu.flatMap
      (fun ci => ci.2.filterMap
        (fun e => match e with | .dict d => d.name | .other => none))
    match extractOne fratio user_msg names with
    | some (m, s) =>
      if s.geN 75 && !(["menu", "price", "order"].contains (pyLower m)) then
        .ok (suggestMsg m, session)
      else .ok (notSureMsg, session)
    | none => .ok (notSureMsg, session)
  else .ok (notSureMsg, session)

/-- `get_bot_response`: classify, initialize the session, dispatch by
intent.  `rnd` determinizes `random.choice`; the result pairs the
response text with the updated session, or carries a raised exception. -/
def get_bot_response (user_msg : String) (data : BotData) (session : Session)
    (rnd : Nat) : Except PyErr (String × Session) :=
  let user_lower := pyStrip (pyLower user_msg)
  let intent := detect_intent user_msg
  let session := initSession session
  if intent == "halal_query" then .ok (halalMsg, session)
  else if intent == "brand_query" then .ok (brandMsg, session)
  else if intent == "farewell" then .ok (pyChoice farewells rnd, session)
  else if intent == "menu_query" then menuHandler user_msg user_lower data session
  else if intent == "branch_query" then branchHandler data session
  else if intent == "hours_query" then hoursHandler data session
  else if intent == "faq_query" then faqHandler data session
  else if intent == "about" then .ok (brandMsg, session)
  else fallbackHandler user_msg data session

/-! ## Definitions used to state the claims -/

/-- Plain string concatenation of a list (structural, for induction). -/
def strJoin : List String → String
  | [] => ""
  | x :: xs => x ++ strJoin xs

/-- Number of dict entries of the hours dataset. -/
def countDictEntries (l : List HoursVal) : Nat :=
  (l.filter (fun h => h == HoursVal.dict)).length

/-- The hours response as the spec words it: the "already viewed" preface
exactly when the counter is positive, then the header, then one hardcoded
`Monday-Sunday` line per dict entry — independent of the entries'
contents — and a final strip. -/
def hoursClaimRender (shown_hours : Nat) (hours : List HoursVal) : String :=
  pyStrip ((if shown_hours > 0 then alreadyViewedStr else "") ++ hoursHdr ++
    strJoin (List.replicate (countDictEntries hours)
      "Monday-Sunday: 11:00 AM - 2:00 AM\n"))

/-- The branches response as the spec words it: preface exactly when the
counter is positive, header, then one block per branch entry in order
(malformed entries contributing nothing), and a final strip. -/
def branchClaimRender (shown_branches : Nat) (branches : List BranchVal) :
    String :=
  pyStrip ((if shown_branches > 0 then alreadyViewedStr else "") ++
    branchesHdr ++ strJoin (branches.map branchBlock))

/-- C1 failing input: a syntactically valid menu whose single category
holds one record without a `"name"` key. -/
def dataC1 : BotData :=
  { menu := [("stuff", [.dict ⟨none, none, none⟩])], currency := "PKR",
    faq := [], branches := [], hours := [] }

/-- C5 counterexample catalogue: the cleaned query `"abcd"` is a
substring of the candidate `"zzzabcdzzz"`, but `extractOne` ranks
`"abxcd"` higher. -/
def menuC5 : List (String × List MenuEntry) :=
  [("food", [.dict ⟨some "zzzabcdzzz", none, none⟩,
             .dict ⟨some "abxcd", none, none⟩])]

/-- C5 witness catalogue (the spec's own example). -/
def menuZ : List (String × List MenuEntry) :=
  [("burgers", [.dict ⟨some "Zinger Burger", none, none⟩])]

/-- C6 witness catalogue: query `"abcdefghi"` scores exactly 90 against
the category name and (boosted) 95 against the dish name. -/
def menuW : List (String × List MenuEntry) :=
  [("abcdefghijk", [.dict ⟨some "zzzabcdefghizzz", none, none⟩])]

/-- C3 counterexample data: one item priced only through variants. -/
def dataC3 : BotData :=
  { menu := [("burgers", [.dict ⟨some "Zinger Burger", none,
      some [.dict (some "Small") (some 350), .dict (some "Large") (some 550)]⟩])],
    currency := "PKR", faq := [], branches := [], hours := [] }

/-- Generic well-formed data for handler witnesses. -/
def dataB : BotData :=
  { menu := [], currency := "PKR", faq := [],
    branches := [.dict (some "Main") (some "Addr 1") (some "111"), .other],
    hours := [.dict, .other, .dict] }

/-! ## Shared lemmas -/

theorem strData_ext {s t : String} (h : s.data = t.data) : s = t := by
  cases s; cases t; exact congrArg String.mk h

theorem strData_append (s t : String) : (s ++ t).data = s.data ++ t.data := rfl

theorem str_empty_append (s : String) : "" ++ s = s := by
  apply strData_ext; simp [strData_append]

theorem str_append_empty (s : String) : s ++ "" = s := by
  apply strData_ext; simp [strData_append]

theorem str_append_assoc (a b c : String) : a ++ b ++ c = a ++ (b ++ c) := by
  apply strData_ext; simp [strData_append]

theorem strJoin_append (l m : List String) :
    strJoin (l ++ m) = strJoin l ++ strJoin m := by
  induction l with
  | nil => simp [strJoin, str_empty_append]
  | cons x xs ih => simp [strJoin, ih, str_append_assoc]

/-- `foldl (· ++ g ·)` is the accumulator followed by the joined pieces. -/
theorem foldl_append_strJoin {α : Type} (g : α → String) (l : List α)
    (acc : String) :
    l.foldl (fun a x => a ++ g x) acc = acc ++ strJoin (l.map g) := by
  induction l generalizing acc with
  | nil => simp [strJoin, str_append_empty]
  | cons x xs ih => simp [List.foldl_cons, ih, strJoin, str_append_assoc]

theorem isPreB_append_self (l m : List Char) : isPreB l (l ++ m) = true := by
  induction l with
  | nil => rfl
  | cons a as ih => simp [isPreB, ih]

theorem isPreB_ext {s t : List Char} (u : List Char)
    (h : isPreB s t = true) : isPreB s (t ++ u) = true := by
  induction s generalizing t with
  | nil => rfl
  | cons a as ih =>
    cases t with
    | nil => simp [isPreB] at h
    | cons b bs =>
      simp only [isPreB, Bool.and_eq_true] at h ⊢
      exact ⟨h.1, ih h.2⟩

theorem isInfB_nil (t : List Char) : isInfB [] t = true := by
  cases t <;> simp [isInfB, isPreB]

theorem isInfB_of_isPreB {s t : List Char} (h : isPreB s t = true) :
    isInfB s t = true := by
  cases t with
  | nil => cases s with
    | nil => rfl
    | cons a as => simp [isPreB] at h
  | cons c cs => simp [isInfB, h]

theorem isInfB_append_left {s t : List Char} (u : List Char)
    (h : isInfB s t = true) : isInfB s (u ++ t) = true := by
  induction u with
  | nil => simpa using h
  | cons c cs ih => simp [isInfB, ih]

theorem isInfB_append_right {s t : List Char} (u : List Char)
    (h : isInfB s t = true) : isInfB s (t ++ u) = true := by
  induction t with
  | nil =>
    cases s with
    | nil => exact isInfB_nil u
    | cons a as => simp [isInfB, isPreB] at h
  | cons c cs ih =>
    simp only [isInfB, Bool.or_eq_true] at h ⊢
    cases h with
    | inl hp => exact Or.inl (by simpa using isPreB_ext u hp)
    | inr hi => exact Or.inr (ih hi)

theorem pyIn_append_left {n t : String} (u : String)
    (h : pyIn n t = true) : pyIn n (u ++ t) = true := by
  unfold pyIn at h ⊢
  rw [strData_append]
  exact isInfB_append_left u.data h

theorem pyIn_append_right {n t : String} (u : String)
    (h : pyIn n t = true) : pyIn n (t ++ u) = true := by
  unfold pyIn at h ⊢
  rw [strData_append]
  exact isInfB_append_right u.data h

theorem pyIn_self_append (n u : String) : pyIn n (n ++ u) = true := by
  unfold pyIn
  rw [strData_append]
  exact isInfB_of_isPreB (isPreB_append_self n.data u.data)

theorem pyIn_refl (n : String) : pyIn n n = true := by
  have := pyIn_self_append n ""
  rwa [str_append_empty] at this

/-- A member's image is a substring of the join of the images. -/
theorem pyIn_strJoin_of_mem {α : Type} (g : α → String) {x : α}
    {l : List α} (hx : x ∈ l) {n : String} (hn : pyIn n (g x) = true) :
    pyIn n (strJoin (l.map g)) = true := by
  obtain ⟨l₁, l₂, rfl⟩ := List.append_of_mem hx
  rw [List.map_append, strJoin_append, List.map_cons, strJoin]
  exact pyIn_append_left _ (pyIn_append_right _ hn)

theorem dropWhile_append_of_exists {p : Char → Bool} {l₁ : List Char}
    (l₂ : List Char) (h : ∃ c ∈ l₁, p c = false) :
    List.dropWhile p (l₁ ++ l₂) = List.dropWhile p l₁ ++ l₂ := by
  induction l₁ with
  | nil => obtain ⟨c, hc, _⟩ := h; simp at hc
  | cons a as ih =>
    by_cases hpa : p a = true
    · simp only [List.cons_append, List.dropWhile_cons, hpa, if_true]
      apply ih
      obtain ⟨c, hc, hpc⟩ := h
      rcases List.mem_cons.mp hc with rfl | hmem
      · rw [hpa] at hpc; cases hpc
      · exact ⟨c, hmem, hpc⟩
    · rw [Bool.not_eq_true] at hpa
      simp [List.dropWhile_cons, hpa]

theorem dropWhile_append_singleton {p : Char → Bool} {a : Char}
    (l : List Char) (ha : p a = false) :
    List.dropWhile p (l ++ [a]) = List.dropWhile p l ++ [a] := by
  induction l with
  | nil => simp [List.dropWhile_cons, ha]
  | cons b bs ih =>
    by_cases hpb : p b = true
    · simp [List.dropWhile_cons, hpb, ih]
    · rw [Bool.not_eq_true] at hpb
      simp [List.dropWhile_cons, hpb]

theorem dropRightWhileL_append {p : Char → Bool} (l₁ : List Char)
    {l₂ : List Char} (h : ∃ c ∈ l₂, p c = false) :
    dropRightWhileL p (l₁ ++ l₂) = l₁ ++ dropRightWhileL p l₂ := by
  unfold dropRightWhileL
  rw [List.reverse_append]
  rw [dropWhile_append_of_exists l₁.reverse]
  · rw [List.reverse_append, List.reverse_reverse]
  · obtain ⟨c, hc, hpc⟩ := h
    exact ⟨c, List.mem_reverse.mpr hc, hpc⟩

theorem dropRightWhileL_cons_head {p : Char → Bool} {a : Char}
    (l : List Char) (ha : p a = false) :
    dropRightWhileL p (a :: l) = a :: dropRightWhileL p l := by
  unfold dropRightWhileL
  rw [show (a :: l).reverse = l.reverse ++ [a] by simp]
  rw [dropWhile_append_singleton _ ha, List.reverse_append]
  simp

/-- Dispatch: an `hours_query` message reaches the hours handler on the
initialized session. -/
theorem gbr_dispatch_hours (msg : String) (data : BotData) (s : Session)
    (rnd : Nat) (h : detect_intent msg = "hours_query") :
    get_bot_response msg data s rnd = hoursHandler data (initSession s) := by
  simp [get_bot_response, h]

theorem gbr_dispatch_branches (msg : String) (data : BotData) (s : Session)
    (rnd : Nat) (h : detect_intent msg = "branch_query") :
    get_bot_response msg data s rnd = branchHandler data (initSession s) := by
  simp [get_bot_response, h]

theorem gbr_dispatch_menu (msg : String) (data : BotData) (s : Session)
    (rnd : Nat) (h : detect_intent msg = "menu_query") :
    get_bot_response msg data s rnd =
      menuHandler msg (pyStrip (pyLower msg)) data (initSession s) := by
  simp [get_bot_response, h]

theorem countDict_cons_dict (t : List HoursVal) :
    countDictEntries (HoursVal.dict :: t) = countDictEntries t + 1 := by
  have hb : (HoursVal.dict == HoursVal.dict) = true := by decide
  simp [countDictEntries, List.filter_cons, hb]

theorem countDict_cons_other (t : List HoursVal) :
    countDictEntries (HoursVal.other :: t) = countDictEntries t := by
  have hb : (HoursVal.other == HoursVal.dict) = false := by decide
  simp [countDictEntries, List.filter_cons, hb]

/-- The hours handler's item lines joined are one hardcoded line per
dict entry. -/
theorem hoursLines_eq (l : List HoursVal) :
    strJoin (l.map hoursLine) =
      strJoin (List.replicate (countDictEntries l)
        "Monday-Sunday: 11:00 AM - 2:00 AM\n") := by
  induction l with
  | nil => rfl
  | cons h t ih =>
    cases h with
    | dict =>
      rw [countDict_cons_dict, List.map_cons, List.replicate_succ]
      simp only [strJoin, hoursLine, ih]
    | other =>
      rw [countDict_cons_other, List.map_cons]
      simp only [strJoin, hoursLine, str_empty_append, ih]

/-- The repeat-visit header is the optional preface followed by the
fixed header. -/
theorem hours_header_eq (cnt : Nat) :
    (if cnt > 0 then alreadyViewedStr ++ hoursHdr else hoursHdr) =
      (if cnt > 0 then alreadyViewedStr else "") ++ hoursHdr := by
  by_cases h : cnt > 0 <;> simp [h, str_empty_append]

theorem branches_header_eq (cnt : Nat) :
    (if cnt > 0 then alreadyViewedStr ++ branchesHdr else branchesHdr) =
      (if cnt > 0 then alreadyViewedStr else "") ++ branchesHdr := by
  by_cases h : cnt > 0 <;> simp [h, str_empty_append]

/-- **C4** — For every `hours_query` with a non-empty hours dataset, the
response enumerates the hours entries as one hardcoded
"Monday-Sunday: 11:00 AM - 2:00 AM" line per dict entry, independent of
the per-day contents, with the "already viewed" preface exactly when
`session.shown_hours > 0` (encoded in `hoursClaimRender`); an empty
hours dataset yields the canned unavailable sentence. -/
theorem c4_hours_rendering (msg : String) (data : BotData) (s : Session)
    (rnd : Nat) (h : detect_intent msg = "hours_query") :
    (data.hours ≠ [] →
      get_bot_response msg data s rnd =
        .ok (hoursClaimRender (s.shown_hours.getD 0) data.hours,
             { initSession s with
                shown_hours := some (s.shown_hours.getD 0 + 1) })) ∧
    (data.hours = [] →
      get_bot_response msg data s rnd =
        .ok ("Sorry, opening hours are not available.", initSession s)) := by
  rw [gbr_dispatch_hours msg data s rnd h]
  constructor
  · intro hne
    have hemp : data.hours.isEmpty = false := by
      simpa [List.isEmpty_iff] using hne
    simp only [hoursHandler, hemp, Bool.false_eq_true, if_false,
      foldl_append_strJoin hoursLine, hoursLines_eq, initSession,
      Option.getD_some, hoursClaimRender, hours_header_eq, str_append_assoc]
  · intro he
    simp only [hoursHandler, he, List.isEmpty_nil, if_true]

/-- Witness for C4: concrete repeat visit (counter 2) over a three-entry
hours list with one malformed entry, and the preface present. -/
theorem c4_hours_rendering_witness :
    get_bot_response "what are your hours" dataB { shown_hours := some 2 } 0 =
      .ok (hoursClaimRender 2 dataB.hours,
           { initSession { shown_hours := some 2 } with
              shown_hours := some 3 }) ∧
    pyStartsWith (hoursClaimRender 2 dataB.hours) alreadyViewedStr = true ∧
    countDictEntries dataB.hours = 2 :=
  ⟨(c4_hours_rendering "what are your hours" dataB { shown_hours := some 2 } 0
      (by decide)).1 (by decide),
   by decide, by decide⟩

theorem dropWhile_cons_of_false {p : Char → Bool} {a : Char} (l : List Char)
    (h : p a = false) : List.dropWhile p (a :: l) = a :: l := by
  simp [List.dropWhile_cons, h]

theorem isPreB_false_of_ne_head {a b : Char} (h : (b == a) = false)
    (as bs : List Char) : isPreB (b :: bs) (a :: as) = false := by
  simp [isPreB, h]

/-- With a positive counter the rendered branch response starts with the
"already viewed" preface. -/
theorem branchClaim_startsWith_pos (cnt : Nat) (branches : List BranchVal)
    (h : 0 < cnt) :
    pyStartsWith (branchClaimRender cnt branches) alreadyViewedStr = true := by
  unfold branchClaimRender
  rw [if_pos h, str_append_assoc]
  unfold pyStartsWith pyStrip
  rw [strData_append]
  rw [dropWhile_append_of_exists _ ⟨'Y', by decide, by decide⟩]
  rw [show List.dropWhile isPyWS alreadyViewedStr.data = alreadyViewedStr.data
    from by decide]
  rw [dropRightWhileL_append alreadyViewedStr.data
    (by rw [strData_append]
        exact ⟨'O', List.mem_append.mpr (Or.inl (by decide)), by decide⟩)]
  exact isPreB_append_self _ _

/-- Stripping a string whose first character is not whitespace cannot
produce a string starting with a differently-headed prefix. -/
theorem startsWith_strip_cons_ne {a b : Char} (t rest bs : List Char)
    (ha : isPyWS a = false) (hne : (b == a) = false) :
    isPreB (b :: bs)
      (dropRightWhileL isPyWS (List.dropWhile isPyWS (a :: t ++ rest)))
      = false := by
  rw [List.cons_append, dropWhile_cons_of_false _ ha,
    dropRightWhileL_cons_head _ ha]
  exact isPreB_false_of_ne_head hne _ _

/-- With a zero counter the rendered branch response does not start with
the preface. -/
theorem branchClaim_startsWith_zero (branches : List BranchVal) :
    pyStartsWith (branchClaimRender 0 branches) alreadyViewedStr = false := by
  unfold branchClaimRender
  rw [if_neg (by omega), str_empty_append]
  unfold pyStartsWith pyStrip
  rw [strData_append]
  exact startsWith_strip_cons_ne _ _ _ (by decide) (by decide)

/-- **C8** — For every session and non-empty branch dataset, a
`branch_query` renders the branch enumeration: the response equals the
claim's rendering (preface exactly when the stored counter is positive,
then the header and one block per branch in order), the counter is
incremented, the first call (counter 0 or absent) carries no preface,
and any later call does. -/
theorem c8_branch_repeat (msg : String) (data : BotData) (s : Session)
    (rnd : Nat) (h : detect_intent msg = "branch_query")
    (hb : data.branches ≠ []) :
    get_bot_response msg data s rnd =
      .ok (branchClaimRender (s.shown_branches.getD 0) data.branches,
           { initSession s with
              shown_branches := some (s.shown_branches.getD 0 + 1) }) ∧
    (0 < s.shown_branches.getD 0 →
      pyStartsWith (branchClaimRender (s.shown_branches.getD 0) data.branches)
        alreadyViewedStr = true) ∧
    (s.shown_branches.getD 0 = 0 →
      pyStartsWith (branchClaimRender (s.shown_branches.getD 0) data.branches)
        alreadyViewedStr = false) := by
  refine ⟨?_, fun hpos => branchClaim_startsWith_pos _ _ hpos, fun hz => ?_⟩
  · rw [gbr_dispatch_branches msg data s rnd h]
    have hemp : data.branches.isEmpty = false := by
      simpa [List.isEmpty_iff] using hb
    simp only [branchHandler, hemp, Bool.false_eq_true, if_false,
      foldl_append_strJoin branchBlock, initSession, Option.getD_some,
      branchClaimRender, branches_header_eq, str_append_assoc]
  · rw [hz]
    exact branchClaim_startsWith_zero _

/-- Witness for C8: a first call without preface, then a repeat call
(counter 1) with the preface, over a concrete two-entry branch list. -/
theorem c8_branch_repeat_witness :
    (get_bot_response "where are your branches" dataB {} 0 =
      .ok (branchClaimRender 0 dataB.branches,
           { initSession ({} : Session) with shown_branches := some 1 })) ∧
    pyStartsWith (branchClaimRender 0 dataB.branches) alreadyViewedStr
      = false ∧
    (get_bot_response "where are your branches" dataB
        { shown_branches := some 1 } 0 =
      .ok (branchClaimRender 1 dataB.branches,
           { initSession { shown_branches := some 1 } with
              shown_branches := some 2 })) ∧
    pyStartsWith (branchClaimRender 1 dataB.branches) alreadyViewedStr
      = true :=
  ⟨(c8_branch_repeat "where are your branches" dataB {} 0 (by decide)
      (by decide)).1,
   (c8_branch_repeat "where are your branches" dataB {} 0 (by decide)
      (by decide)).2.2 rfl,
   (c8_branch_repeat "where are your branches" dataB
      { shown_branches := some 1 } 0 (by decide) (by decide)).1,
   (c8_branch_repeat "where are your branches" dataB
      { shown_branches := some 1 } 0 (by decide) (by decide)).2.1
      (by decide)⟩

/-- **C10** — For halal, brand and farewell intents the session is only
initialized, never otherwise mutated: present fields keep their values,
absent counters become 0, absent `last_topic`/`faq_followup` become
`None`, and the returned text is the same for any two sessions. -/
theorem c10_session_frame (msg : String) (data : BotData) (s s' : Session)
    (rnd : Nat)
    (h : detect_intent msg = "halal_query" ∨
         detect_intent msg = "brand_query" ∨
         detect_intent msg = "farewell") :
    (∃ r, get_bot_response msg data s rnd = .ok (r, initSession s) ∧
          get_bot_response msg data s' rnd = .ok (r, initSession s')) ∧
    (∀ n, s.shown_menu = some n → (initSession s).shown_menu = some n) ∧
    (∀ n, s.shown_hours = some n → (initSession s).shown_hours = some n) ∧
    (∀ n, s.shown_branches = some n →
      (initSession s).shown_branches = some n) ∧
    (∀ n, s.shown_delivery = some n →
      (initSession s).shown_delivery = some n) ∧
    (∀ t, s.last_topic = some t → (initSession s).last_topic = some t) ∧
    (s.shown_menu = none → (initSession s).shown_menu = some 0) ∧
    (s.shown_hours = none → (initSession s).shown_hours = some 0) ∧
    (s.shown_branches = none → (initSession s).shown_branches = some 0) ∧
    (s.shown_delivery = none → (initSession s).shown_delivery = some 0) ∧
    (s.last_topic = none → (initSession s).last_topic = some none) ∧
    (s.faq_followup = none → (initSession s).faq_followup = some none) := by
  refine ⟨?_, ?_, ?_, ?_, ?_, ?_, ?_, ?_, ?_, ?_, ?_, ?_⟩
  · rcases h with h | h | h
    · exact ⟨halalMsg, by simp [get_bot_response, h],
        by simp [get_bot_response, h]⟩
    · exact ⟨brandMsg, by simp [get_bot_response, h],
        by simp [get_bot_response, h]⟩
    · exact ⟨pyChoice farewells rnd, by simp [get_bot_response, h],
        by simp [get_bot_response, h]⟩
  all_goals
    first
    | (intro n hn; simp [initSession, hn])
    | (intro hx; simp [initSession, hx])

/-- Witness for C10: a halal query on a session holding a counter and a
stored topic; both values survive initialization unchanged, and the text
matches the one produced for the empty session. -/
theorem c10_session_frame_witness :
    (∃ r,
      get_bot_response "halal" dataB
          { shown_menu := some 5,
            last_topic := some (some (.dish "Zinger Burger")) } 0 =
        .ok (r, initSession
          { shown_menu := some 5,
            last_topic := some (some (.dish "Zinger Burger")) }) ∧
      get_bot_response "halal" dataB {} 0 =
        .ok (r, initSession ({} : Session))) ∧
    (initSession
      { shown_menu := some 5,
        last_topic := some (some (.dish "Zinger Burger")) }).shown_menu
      = some 5 ∧
    (initSession
      { shown_menu := some 5,
        last_topic := some (some (.dish "Zinger Burger")) }).last_topic
      = some (some (.dish "Zinger Burger")) :=
  ⟨(c10_session_frame "halal" dataB
      { shown_menu := some 5,
        last_topic := some (some (.dish "Zinger Burger")) } {} 0
      (Or.inl (by decide))).1,
   (c10_session_frame "halal" dataB
      { shown_menu := some 5,
        last_topic := some (some (.dish "Zinger Burger")) } {} 0
      (Or.inl (by decide))).2.1 5 rfl,
   (c10_session_frame "halal" dataB
      { shown_menu := some 5,
        last_topic := some (some (.dish "Zinger Burger")) } {} 0
      (Or.inl (by decide))).2.2.2.2.2.1 _ rfl⟩

theorem ite_mem_of {c : Prop} [Decidable c] {α : Type} {a b : α}
    {L : List α} (ha : a ∈ L) (hb : b ∈ L) : (if c then a else b) ∈ L := by
  by_cases h : c <;> simp [h, ha, hb]

theorem ite_ne_of {c : Prop} [Decidable c] {α : Type} {a b x : α}
    (ha : a ≠ x) (hb : b ≠ x) : (if c then a else b) ≠ x := by
  by_cases h : c <;> simp [h, ha, hb]

/-- **C9** — `detect_intent` only ever produces one of the eight labels
below; in particular it never produces `"about"`, so the about-handler
branch of `get_bot_response` is unreachable through the
classify-then-render flow. -/
theorem c9_no_about_intent (msg : String) :
    detect_intent msg ∈ ["menu_query", "hours_query", "branch_query",
      "faq_query", "farewell", "halal_query", "brand_query", "unknown"] ∧
    detect_intent msg ≠ "about" := by
  have h1 : detect_intent msg ∈ ["menu_query", "hours_query", "branch_query",
      "faq_query", "farewell", "halal_query", "brand_query", "unknown"] := by
    unfold detect_intent
    generalize normalize_text msg = m
    unfold detect_intent_core
    repeat apply ite_mem_of (by decide)
    decide
  refine ⟨h1, ?_⟩
  rcases (by simpa using h1 :
      detect_intent msg = "menu_query" ∨ detect_intent msg = "hours_query" ∨
      detect_intent msg = "branch_query" ∨ detect_intent msg = "faq_query" ∨
      detect_intent msg = "farewell" ∨ detect_intent msg = "halal_query" ∨
      detect_intent msg = "brand_query" ∨ detect_intent msg = "unknown")
    with h | h | h | h | h | h | h | h <;> simp [h]

/-- **C7** — The farewell rule is exact word-level membership:
`detect_intent "goodbye" = "farewell"`, and any message none of whose
normalized whitespace-delimited words is a goodbye keyword is never
classified as farewell. -/
theorem c7_farewell_whole_word :
    detect_intent "goodbye" = "farewell" ∧
    ∀ msg, (∀ w ∈ pySplitWS (normalize_text msg), w ∉ goodbye_keywords) →
      detect_intent msg ≠ "farewell" := by
  refine ⟨by decide, fun msg h => ?_⟩
  unfold detect_intent
  generalize hm : normalize_text msg = m
  rw [hm] at h
  have h8 : ¬ ((pySplitWS m).any
      (fun w => goodbye_keywords.contains w) = true) := by
    intro hc
    obtain ⟨w, hw, hcon⟩ := List.any_eq_true.mp hc
    exact h w hw (by simpa using hcon)
  unfold detect_intent_core
  repeat apply ite_ne_of (by decide)
  rw [if_neg h8]
  repeat apply ite_ne_of (by decide)
  decide

/-- Witness for C7: the spec's own example sentence contains the word
"goodbyeologist" but no goodbye keyword, and is not classified farewell. -/
theorem c7_farewell_whole_word_witness :
    (∀ w ∈ pySplitWS (normalize_text "I'm not a goodbyeologist"),
      w ∉ goodbye_keywords) ∧
    detect_intent "I'm not a goodbyeologist" ≠ "farewell" :=
  ⟨by decide,
   c7_farewell_whole_word.2 "I'm not a goodbyeologist" (by decide)⟩

/-- **C1** (refutation by evaluation) — the claim says `get_bot_response`
never raises and that malformed records are skipped on every rendering
path including the "Popular Items" preview; but on the message `"menu"`
(intent `menu_query`) with a category whose first record lacks `"name"`,
the preview evaluates `items[0]['name']` unguarded and raises
`KeyError('name')`. -/
theorem c1_popular_items_keyerror :
    detect_intent "menu" = "menu_query" ∧
    get_bot_response "menu" dataC1 {} 0 =
      .error (.keyError "name") := by
  exact ⟨by decide, by decide⟩

/-- **C2** (refutation by evaluation) — the punctuation pass of
`normalize_text` turns the apostrophe into a space before the
contraction table is consulted, so no contraction ever expands:
`"what's"` normalizes to `"what s"` (not containing `"what is"`) and
`"don't"` to `"don t"` (not containing `"do not"`). -/
theorem c2_contraction_table_dead :
    normalize_text "what's" = "what s" ∧
    pyIn "what is" (normalize_text "what's") = false ∧
    normalize_text "don't" = "don t" ∧
    pyIn "do not" (normalize_text "don't") = false := by
  exact ⟨by decide, by decide, by decide, by decide⟩

theorem pymax95_geN95 (s : FScore) : (s.pymax ⟨95, 1⟩).geN 95 = true := by
  unfold FScore.pymax FScore.ltB FScore.geN
  simp only [Nat.mul_one, decide_eq_true_eq]
  by_cases h : s.num < 95 * s.den
  · rw [if_pos h]; simp
  · rw [if_neg h]
    omega

theorem geN95_geN60 (s : FScore) (h : s.geN 95 = true) : s.geN 60 = true := by
  unfold FScore.geN at *
  simp at *
  omega

theorem pymax95_gtN80 (s : FScore) (hden : s.den ≠ 0) :
    (s.pymax ⟨95, 1⟩).gtN 80 = true := by
  unfold FScore.pymax FScore.ltB FScore.gtN
  simp only [Nat.mul_one, decide_eq_true_eq]
  by_cases h : s.num < 95 * s.den
  · rw [if_pos h]; simp
  · rw [if_neg h]
    omega

/-- **C5** (corrected, amended) — The substring boost applies to the
best `extractOne` candidate: if the cleaned query is a case-insensitive
substring of that candidate `c`, the dish score is forced to
`max(score, 95) ≥ 95`, hence above the ≥60 acceptance threshold, the
candidate is accepted, and a variant alias is resolved back to the
parent dish name through `dish_map`; if furthermore no category
candidate was accepted, the resolver returns that dish.  (All rapidfuzz
scores have positive denominators, as the witness instantiates.) -/
theorem c5_substring_boost (msg : String)
    (menu : List (String × List MenuEntry)) (c : String) (s : FScore)
    (hx : dishExtract (cleanedQueryOf msg) menu = some (c, s))
    (hsub : pyIn (pyLower (cleanedQueryOf msg)) (pyLower c) = true)
    (hden : s.den ≠ 0) :
    dishCandidate (cleanedQueryOf msg) menu =
      (some ((lookupLast (buildItemsMap menu).2 (pyLower c)).getD c),
       s.pymax ⟨95, 1⟩) ∧
    (s.pymax ⟨95, 1⟩).geN 95 = true ∧
    (s.pymax ⟨95, 1⟩).geN 60 = true ∧
    (categoryCandidate (cleanedQueryOf msg) menu = (none, ⟨0, 1⟩) →
      (lookupLast (buildItemsMap menu).2 (pyLower c)).getD c ≠ "" →
      search_category_or_dish msg menu =
        some (.dish ((lookupLast (buildItemsMap menu).2 (pyLower c)).getD c))) := by
  have hacc : dishCandidate (cleanedQueryOf msg) menu =
      (some ((lookupLast (buildItemsMap menu).2 (pyLower c)).getD c),
       s.pymax ⟨95, 1⟩) := by
    unfold dishCandidate
    rw [hx]
    simp only [hsub, if_true]
    rw [if_pos (geN95_geN60 _ (pymax95_geN95 s))]
  refine ⟨hacc, pymax95_geN95 s, geN95_geN60 _ (pymax95_geN95 s),
    fun hcat hne => ?_⟩
  simp only [search_category_or_dish]
  rw [hcat, hacc]
  unfold searchDecision optTruthy
  have hne' : (((lookupLast (buildItemsMap menu).2 (pyLower c)).getD c)
      != "") = true := by simpa using hne
  simp only [hne', Bool.false_and, Bool.true_and, if_false,
    pymax95_gtN80 s hden, if_true, Option.getD_some]
  simp

/-- Witness for C5: the spec's own example — cleaned query `"zinger"`
against the sole candidate `"Zinger Burger"` scores only 1000/19 ≈ 52.6
by token-set ratio, is boosted to 95 by the substring rule, and the
resolver returns the dish. -/
theorem c5_substring_boost_witness :
    dishExtract (cleanedQueryOf "zinger") menuZ =
      some ("Zinger Burger", ⟨1000, 19⟩) ∧
    pyIn (pyLower (cleanedQueryOf "zinger")) (pyLower "Zinger Burger")
      = true ∧
    dishCandidate (cleanedQueryOf "zinger") menuZ =
      (some "Zinger Burger", ⟨95, 1⟩) ∧
    search_category_or_dish "zinger" menuZ =
      some (.dish "Zinger Burger") :=
  ⟨by decide, by decide,
   by
    have h := (c5_substring_boost "zinger" menuZ "Zinger Burger" ⟨1000, 19⟩
      (by decide) (by decide) (by decide)).1
    rw [h]; decide,
   by
    have h := (c5_substring_boost "zinger" menuZ "Zinger Burger" ⟨1000, 19⟩
      (by decide) (by decide) (by decide)).2.2.2 (by decide) (by decide)
    rw [h]; decide⟩

/-- **C5** (counterexample to the claim as stated) — in `menuC5` the
cleaned query `"abcd"` is a case-insensitive substring of the candidate
`"zzzabcdzzz"`, yet the resolver accepts the differently-named dish
`"abxcd"`, whose score 800/9 ≈ 88.9 was never forced to ≥ 95. -/
theorem c5_substring_boost_counterexample :
    pyIn (pyLower (cleanedQueryOf "abcd")) (pyLower "zzzabcdzzz") = true ∧
    "zzzabcdzzz" ∈ (buildItemsMap menuC5).1 ∧
    search_category_or_dish "abcd" menuC5 = some (.dish "abxcd") ∧
    dishCandidate (cleanedQueryOf "abcd") menuC5 =
      (some "abxcd", ⟨800, 9⟩) ∧
    (⟨800, 9⟩ : FScore).geN 95 = false := by
  exact ⟨by decide, by decide, by decide, by decide, by decide⟩

/-- **C6** — The resolver's decision rule, for accepted (non-empty-named)
candidates: with a category candidate scoring > 85 the category wins
unless the dish score exceeds it by more than 10; otherwise a dish
scoring > 80 wins; otherwise, with both candidates present, the higher
score wins and ties favor the category.  (Accepted candidates have
non-empty names for any well-formed catalogue, per the data-model
invariant that item names are non-empty.) -/
theorem c6_decision_rule (msg : String)
    (menu : List (String × List MenuEntry)) (cn : String) (cs : FScore)
    (dn : String) (ds : FScore)
    (hcat : categoryCandidate (cleanedQueryOf msg) menu = (some cn, cs))
    (hcn : cn ≠ "")
    (hdish : dishCandidate (cleanedQueryOf msg) menu = (some dn, ds))
    (hdn : dn ≠ "") :
    (cs.gtN 85 = true →
      (((cs.addN 10).ltB ds = false →
        search_category_or_dish msg menu =
          some (.category cn (menuGet menu cn))) ∧
       ((cs.addN 10).ltB ds = true →
        search_category_or_dish msg menu = some (.dish dn)))) ∧
    (cs.gtN 85 = false → ds.gtN 80 = true →
      search_category_or_dish msg menu = some (.dish dn)) ∧
    (cs.gtN 85 = false → ds.gtN 80 = false →
      ((ds.leB cs = true →
        search_category_or_dish msg menu =
          some (.category cn (menuGet menu cn))) ∧
       (ds.leB cs = false →
        search_category_or_dish msg menu = some (.dish dn)))) := by
  have hcn' : (cn != "") = true := by simpa using hcn
  have hdn' : (dn != "") = true := by simpa using hdn
  have hsd : search_category_or_dish msg menu =
      searchDecision (some cn, cs) (some dn, ds) menu := by
    simp only [search_category_or_dish]
    rw [hcat, hdish]
  refine ⟨fun h85 => ⟨fun hgap => ?_, fun hgap => ?_⟩,
    fun h85 h80 => ?_, fun h85 h80 => ⟨fun htie => ?_, fun htie => ?_⟩⟩ <;>
    rw [hsd] <;>
    simp_all [searchDecision, optTruthy]

/-- Witness for C6: the spec's tie-break example — category score
exactly 90 (= 1800/20), dish score 95 after the boost, gap ≤ 10, so the
category is preferred. -/
theorem c6_decision_rule_witness :
    categoryCandidate (cleanedQueryOf "abcdefghi") menuW =
      (some "abcdefghijk", ⟨1800, 20⟩) ∧
    dishCandidate (cleanedQueryOf "abcdefghi") menuW =
      (some "zzzabcdefghizzz", ⟨95, 1⟩) ∧
    (⟨1800, 20⟩ : FScore).gtN 85 = true ∧
    ((⟨1800, 20⟩ : FScore).addN 10).ltB ⟨95, 1⟩ = false ∧
    search_category_or_dish "abcdefghi" menuW =
      some (.category "abcdefghijk"
        [.dict ⟨some "zzzabcdefghizzz", none, none⟩]) :=
  ⟨by decide, by decide, by decide, by decide,
   ((c6_decision_rule "abcdefghi" menuW "abcdefghijk" ⟨1800, 20⟩
      "zzzabcdefghizzz" ⟨95, 1⟩ (by decide) (by decide) (by decide)
      (by decide)).1 (by decide)).1 (by decide)⟩

theorem fullMenuRender_eq (menu : List (String × List MenuEntry))
    (cur : String) :
    fullMenuRender menu cur =
      fullMenuHdr ++ strJoin (menu.map (fullCatBlock cur)) :=
  foldl_append_strJoin (fullCatBlock cur) menu fullMenuHdr

theorem fullCatBlock_expand (cur cname : String) (items : List MenuEntry)
    (hne : items ≠ []) :
    fullCatBlock cur (cname, items) =
      ("ðŸ“‹ " ++ pyReplace (pyUpper cname) "_" " " ++ "\n") ++
      ((pyRepeat "â”€" 20 ++ "\n") ++
       (strJoin (items.map (fullItemLine cur)) ++ "\n")) := by
  unfold fullCatBlock
  rw [if_neg (by simp [List.length_eq_zero, hne])]
  rw [foldl_append_strJoin (fullItemLine cur) items ""]
  rw [str_empty_append]
  simp only [str_append_assoc]

theorem pyIn_fullMenu_header (menu : List (String × List MenuEntry))
    (cur cname : String) (items : List MenuEntry)
    (hmem : (cname, items) ∈ menu) (hne : items ≠ []) :
    pyIn ("ðŸ“‹ " ++ pyReplace (pyUpper cname) "_" " " ++ "\n")
      (fullMenuRender menu cur) = true := by
  rw [fullMenuRender_eq]
  apply pyIn_append_left
  apply pyIn_strJoin_of_mem (fullCatBlock cur) hmem
  rw [fullCatBlock_expand cur cname items hne]
  exact pyIn_self_append _ _

theorem pyIn_fullMenu_item (menu : List (String × List MenuEntry))
    (cur cname : String) (items : List MenuEntry) (d : ItemDict)
    (hmem : (cname, items) ∈ menu) (hdm : MenuEntry.dict d ∈ items)
    {needle : String} (hn : pyIn needle (fullItemLine cur (.dict d)) = true) :
    pyIn needle (fullMenuRender menu cur) = true := by
  rw [fullMenuRender_eq]
  apply pyIn_append_left
  apply pyIn_strJoin_of_mem (fullCatBlock cur) hmem
  have hne : items ≠ [] := by
    intro h
    rw [h] at hdm
    cases hdm
  rw [fullCatBlock_expand cur cname items hne]
  apply pyIn_append_left
  apply pyIn_append_left
  apply pyIn_append_right
  exact pyIn_strJoin_of_mem (fullItemLine cur) hdm hn

theorem pyIn_itemLine_name (cur : String) (d : ItemDict) (nm : String)
    (hn : d.name = some nm) :
    pyIn ("â€¢ " ++ nm) (fullItemLine cur (.dict d)) = true := by
  obtain ⟨dn, db, dv⟩ := d
  have hn' : dn = some nm := hn
  subst hn'
  simp only [fullItemLine]
  exact pyIn_append_right _ (pyIn_self_append _ _)

theorem pyIn_itemLine_base (cur : String) (d : ItemDict) (nm : String)
    (bp : Nat) (hn : d.name = some nm) (hb : d.base_price = some bp) :
    pyIn ("â€¢ " ++ nm ++ " â€” " ++ toString bp ++ " " ++ cur ++ "\n")
      (fullItemLine cur (.dict d)) = true := by
  obtain ⟨dn, db, dv⟩ := d
  have hn' : dn = some nm := hn
  have hb' : db = some bp := hb
  subst hn'
  subst hb'
  simp only [fullItemLine]
  simp only [str_append_assoc]
  exact pyIn_refl _

theorem pyIn_itemLine_noprice (cur : String) (d : ItemDict) (nm : String)
    (hn : d.name = some nm) (hb : d.base_price = none) :
    pyIn ("â€¢ " ++ nm ++ "\n") (fullItemLine cur (.dict d)) = true := by
  obtain ⟨dn, db, dv⟩ := d
  have hn' : dn = some nm := hn
  have hb' : db = none := hb
  subst hn'
  subst hb'
  simp only [fullItemLine]
  simp only [str_append_assoc, str_append_empty, str_empty_append]
  exact pyIn_refl _

/-- **C3** (corrected, amended) — A full-menu request renders the
full-menu response with `shown_menu` set to 1; that response lists every
category with a nonzero item count (its display header appears) and
every well-formed item's name; items with a base price show
"name — price currency", while items priced only through variants show
just their name with no price range (the range rendering exists only in
the per-category view, not the full menu). -/
theorem c3_full_menu_rendering (msg : String) (data : BotData)
    (s : Session) (rnd : Nat)
    (h1 : detect_intent msg = "menu_query")
    (h2 : full_menu_keywords.any
      (fun kw => pyIn kw (pyStrip (pyLower msg))) = true) :
    get_bot_response msg data s rnd =
      .ok (fullMenuRender data.menu data.currency,
           { initSession s with shown_menu := some 1 }) ∧
    (∀ cname items, (cname, items) ∈ data.menu → items ≠ [] →
      pyIn ("ðŸ“‹ " ++ pyReplace (pyUpper cname) "_" " " ++ "\n")
        (fullMenuRender data.menu data.currency) = true) ∧
    (∀ cname items d nm, (cname, items) ∈ data.menu →
      MenuEntry.dict d ∈ items → d.name = some nm →
      pyIn ("â€¢ " ++ nm)
        (fullMenuRender data.menu data.currency) = true) ∧
    (∀ cname items d nm bp, (cname, items) ∈ data.menu →
      MenuEntry.dict d ∈ items → d.name = some nm →
      d.base_price = some bp →
      pyIn ("â€¢ " ++ nm ++ " â€” " ++ toString bp ++ " " ++
          data.currency ++ "\n")
        (fullMenuRender data.menu data.currency) = true) ∧
    (∀ cname items d nm, (cname, items) ∈ data.menu →
      MenuEntry.dict d ∈ items → d.name = some nm → d.base_price = none →
      pyIn ("â€¢ " ++ nm ++ "\n")
        (fullMenuRender data.menu data.currency) = true) := by
  refine ⟨?_,
    fun cname items hm hne => pyIn_fullMenu_header _ _ _ _ hm hne,
    fun cname items d nm hm hdm hn =>
      pyIn_fullMenu_item _ _ _ _ _ hm hdm (pyIn_itemLine_name _ _ _ hn),
    fun cname items d nm bp hm hdm hn hb =>
      pyIn_fullMenu_item _ _ _ _ _ hm hdm
        (pyIn_itemLine_base _ _ _ _ hn hb),
    fun cname items d nm hm hdm hn hb =>
      pyIn_fullMenu_item _ _ _ _ _ hm hdm
        (pyIn_itemLine_noprice _ _ _ hn hb)⟩
  rw [gbr_dispatch_menu msg data s rnd h1]
  simp [menuHandler, h2]

/-- **C3** (counterexample to the claim as stated) — on a catalogue
whose only item is priced exclusively through variants (350 and 550),
the full-menu response shows the item name but no price and no
"min-max" range anywhere. -/
theorem c3_full_menu_counterexample :
    get_bot_response "full menu" dataC3 {} 0 =
      .ok (fullMenuRender dataC3.menu "PKR",
           { initSession ({} : Session) with shown_menu := some 1 }) ∧
    pyIn "Zinger Burger" (fullMenuRender dataC3.menu "PKR") = true ∧
    pyIn "350" (fullMenuRender dataC3.menu "PKR") = false ∧
    pyIn "550" (fullMenuRender dataC3.menu "PKR") = false ∧
    pyIn "350-550" (fullMenuRender dataC3.menu "PKR") = false := by
  exact ⟨by decide, by decide, by decide, by decide, by decide⟩

/-- Witness for C3: the amended theorem applied to the concrete
variant-priced catalogue. -/
theorem c3_full_menu_rendering_witness :
    get_bot_response "full menu" dataC3 {} 0 =
      .ok (fullMenuRender dataC3.menu dataC3.currency,
           { initSession ({} : Session) with shown_menu := some 1 }) ∧
    pyIn ("â€¢ " ++ "Zinger Burger" ++ "\n")
      (fullMenuRender dataC3.menu dataC3.currency) = true :=
  ⟨(c3_full_menu_rendering "full menu" dataC3 {} 0 (by decide)
      (by decide)).1,
   (c3_full_menu_rendering "full menu" dataC3 {} 0 (by decide)
      (by decide)).2.2.2.2 "burgers"
      [.dict ⟨some "Zinger Burger", none,
        some [.dict (some "Small") (some 350),
              .dict (some "Large") (some 550)]⟩]
      ⟨some "Zinger Burger", none,
        some [.dict (some "Small") (some 350),
              .dict (some "Large") (some 550)]⟩
      "Zinger Burger" (by decide) (by decide) rfl rfl⟩
